import Mathlib

/-!
Shallow embedding of `src/main.py`: a Django data model of construction
estimates (Building / Section / Expenditure) with three operations,
`get_parent_sections`, `get_buildings` and `update_with_discount`, and a
validation hook `Section.save`.

Stored rows are embedded as structures whose fields mirror the declared
model fields (`DecimalField` values are embedded as exact rationals).
Django field-reference resolution (`F('a__b')`, filter keywords) is embedded
at the schema level, derived from the three `ForeignKey` declarations of the
source, because two of the operations turn on it: `annotate(...)` resolves
every `F`-path against the model eagerly, and an unresolvable keyword raises
`django.core.exceptions.FieldError` before any data is touched.
-/

/-- A stored `Building` row: fields `id` and `name` (src/main.py lines 8-9). -/
structure BuildingRow where
  id : Int
  name : String
deriving DecidableEq, Repr

/-- A stored `Section` row: fields `id`, `building_id` (FK to Building) and
nullable `parent_id` (self FK), src/main.py lines 15-18. -/
structure SectionRow where
  id : Int
  building_id : Int
  parent_id : Option Int
deriving DecidableEq, Repr

/-- A stored `Expenditure` row: `id`, `section_id` (FK to Section), `name`,
`type` (`"work"` or `"material"`), `count` and `price` (decimals, embedded as
exact rationals), src/main.py lines 29-43. -/
structure ExpenditureRow where
  id : Int
  section_id : Int
  name : String
  type : String
  count : ℚ
  price : ℚ
deriving DecidableEq, Repr

/-- The database state: the three tables. -/
structure DB where
  buildings : List BuildingRow
  sections : List SectionRow
  expenditures : List ExpenditureRow
deriving DecidableEq, Repr

/-- Exceptions the source can raise: `ValidationError` (explicit raises at
lines 25 and 97), `Section.DoesNotExist` (from `Section.objects.get`, line 99),
`FieldError` (unresolvable query keyword, carries the failing keyword),
`AttributeError` (access to an attribute a model instance does not have,
carries the attribute name), and `ProtectedError` (deletion blocked by
`on_delete=PROTECT`). -/
inductive DjangoError where
  | validationError
  | doesNotExist
  | fieldError (kw : String)
  | attributeError (attr : String)
  | protectedError
deriving DecidableEq, Repr

/-- The three model kinds of the schema. -/
inductive MK where
  | building
  | section
  | expenditure
deriving DecidableEq, Repr, BEq

/-- Lowercased model names, used by Django as the default
`related_query_name` of a reverse foreign-key relation. -/
def modelName : MK → String
  | .building => "building"
  | .section => "section"
  | .expenditure => "expenditure"

/-- The `ForeignKey` declarations of the source, as
(source model, field name, target model):
`Section.building` (line 16), `Section.parent` (line 17),
`Expenditure.section` (line 38). None declares a `related_name`. -/
def foreignKeys : List (MK × String × MK) :=
  [(MK.section, "building", MK.building),
   (MK.section, "parent", MK.section),
   (MK.expenditure, "section", MK.section)]

/-- Django keyword resolution for one relation step from model `m`:
a forward step uses the foreign key's field name; a reverse step uses the
related query name, which with no `related_name` declared is the lowercased
name of the model holding the foreign key. -/
def relTarget (m : MK) (kw : String) : Option MK :=
  match foreignKeys.find? (fun fk => fk.1 == m && fk.2.1 == kw) with
  | some fk => some fk.2.2
  | none =>
      (foreignKeys.find? (fun fk => fk.2.2 == m && modelName fk.1 == kw)).map (fun fk => fk.1)

/-- The concrete (non-relational) column names each model exposes to query
keywords, mirroring the field declarations of the source (`pk` is Django's
alias for the primary key). -/
def hasField : MK → String → Bool
  | .building, f => f == "id" || f == "pk" || f == "name"
  | .section, f => f == "id" || f == "pk" || f == "building_id" || f == "parent_id"
  | .expenditure, f =>
      f == "id" || f == "pk" || f == "section_id" || f == "name" || f == "type"
        || f == "count" || f == "price"

/-- Resolve a chain of relation keywords starting at model `m`; an
unresolvable keyword is a `FieldError` naming that keyword, as in Django's
`names_to_path`. -/
def resolveRel : MK → List String → Except DjangoError MK
  | m, [] => .ok m
  | m, kw :: rest =>
      match relTarget m kw with
      | some m2 => resolveRel m2 rest
      | none => .error (.fieldError kw)

/-- Split a character list at every (leftmost-first) occurrence of `"__"`,
accumulating the current component in reverse. -/
def splitDunderAux : List Char → List Char → List String
  | [], acc => [String.mk acc.reverse]
  | '_' :: '_' :: rest, acc => String.mk acc.reverse :: splitDunderAux rest []
  | c :: rest, acc => splitDunderAux rest (c :: acc)

/-- Split a lookup path at the Django separator `"__"`,
e.g. `"section__price"` into `["section", "price"]`. -/
def splitDunder (path : String) : List String :=
  splitDunderAux path.toList []

/-- Resolve one `F('a__b__c')` reference (or plain filter keyword) against
model `m`: every component but the last must be a relation, the last must be
a column or a relation of the model reached. -/
def resolveLookup (m : MK) (path : String) : Except DjangoError Unit :=
  match (splitDunder path).reverse with
  | [] => .ok ()
  | last :: relsRev =>
      match resolveRel m relsRev.reverse with
      | .error e => .error e
      | .ok m2 =>
          if hasField m2 last || (relTarget m2 last).isSome then .ok ()
          else .error (.fieldError last)

/-- An element of the list `get_parent_sections` is declared to return:
a root `Section` annotated with the three budget aggregates (`Sum` over an
empty set is SQL `NULL`, hence `Option`). -/
structure AnnotatedSection where
  sec : SectionRow
  budget_parent : Option ℚ
  budget_child : Option ℚ
  budget_all : Option ℚ
deriving DecidableEq, Repr

/-- One element of the list `get_buildings` is documented to return. -/
structure BuildingReport where
  id : Int
  works_amount : Option ℚ
  materials_amount : Option ℚ
deriving DecidableEq, Repr

/-- `get_parent_sections` (src/main.py lines 49-60).
The queryset is built lazily: `prefetch_related('section')` stores a lookup
(validated only at iteration), `.filter(building_id=..., parent__isnull=True)`
resolves its keywords at call time (both resolve), and `.annotate(...)`
resolves each annotation expression at call time, in keyword order —
`budget_parent = Sum(F('section__price') * F('section__count'))` first, whose
left operand `'section__price'` is resolved before anything else of the
annotation. On this schema the keyword `section` from `Section` is the
reverse of the self foreign key `parent` (the child sections) — the reverse
relation to `Expenditure` is named `expenditure` — and `Section` has no column
`price`, so resolution raises `FieldError` and no row is ever produced or
returned. (Were every keyword to resolve, iterating the queryset would still
raise, because `budget_child`'s filter `Q(parent=OuterRef('pk'))` compiles a
`ResolvedOuterRef` outside any subquery.) -/
def get_parent_sections (db : DB) (building_id : Int) :
    Except DjangoError (List AnnotatedSection) := do
  let _ ← resolveLookup MK.section "building_id"
  let _ ← resolveLookup MK.section "parent"
  let _ ← resolveLookup MK.section "section__price"
  let _ ← resolveLookup MK.section "section__count"
  let _ ← resolveLookup MK.section "section__price"
  let _ ← resolveLookup MK.section "section__count"
  let _ ← resolveLookup MK.section "parent"
  -- unreachable on this schema: `section__price` above never resolves
  let _ := db
  let _ := building_id
  .ok []

/-- `get_buildings` (src/main.py lines 63-89).
`.annotate(...)` resolves `works_amount`'s expression first:
`Sum(F('building__section__count') * F('building__section__price'),
filter=Q(building__section__type='work'))`, whose left operand
`'building__section__count'` is resolved before anything else. `Building`
has columns `id`, `name` and one reverse relation named `section` (from
`Section.building`); no keyword `building` exists on it, so resolution raises
`FieldError` at the first component and the documented list of
`{id, works_amount, materials_amount}` records is never produced. -/
def get_buildings (db : DB) : Except DjangoError (List BuildingReport) := do
  let _ ← resolveLookup MK.building "building__section__count"
  let _ ← resolveLookup MK.building "building__section__price"
  let _ ← resolveLookup MK.building "building__section__type"
  let _ ← resolveLookup MK.building "building__section__count"
  let _ ← resolveLookup MK.building "building__section__price"
  let _ ← resolveLookup MK.building "building__section__type"
  -- unreachable on this schema: `building__...` above never resolves
  let _ := db
  .ok []

/-- `update_with_discount` (src/main.py lines 92-102), returning the
post-state of the database together with the exception raised, if any.
The range check of line 96 runs first; `Section.objects.get(pk=section_id)`
(line 99) raises `Section.DoesNotExist` when no row matches; otherwise
line 100 evaluates `section.price` — but the `Section` model declares no
field `price` (its instances carry only `id`/`pk`, `building`/`building_id`
and `parent`/`parent_id`), so Python raises `AttributeError` and the stored
state is never modified. -/
def update_with_discount (db : DB) (section_id : Int) (discount : ℚ) :
    DB × Option DjangoError :=
  if discount < 0 ∨ discount > 100 then
    (db, some DjangoError.validationError)
  else
    match db.sections.find? (fun s => s.id == section_id) with
    | none => (db, some DjangoError.doesNotExist)
    | some _ => (db, some (DjangoError.attributeError "price"))

/-- An in-memory `Section` model instance as passed to `save`: `id` is `None`
until the row is inserted, `parent` is the related instance (or `None`), which
itself carries its own `parent`. -/
structure SectionInst where
  id : Option Int
  building_id : Int
  parent : Option SectionInst

/-- Python truthiness of an optional integer (`not self.id`): `None` and `0`
are falsy, every other integer truthy. -/
def pyTruthyOptInt : Option Int → Bool
  | none => false
  | some n => n != 0

/-- The next primary key the backing store assigns on insert. -/
def nextSectionId (db : DB) : Int :=
  (db.sections.map (fun s => s.id)).foldl max 0 + 1

/-- `models.Model.save` for a `Section` (the `super().save(...)` call of
line 26): with `id` set it updates the row of that primary key (inserting if
absent); with `id` unset it inserts a fresh row, whose `parent_id` is the
parent instance's primary key. Foreign-key existence is enforced by the
backing store, outside this embedding's scope. -/
def superSaveSection (self : SectionInst) (db : DB) : DB × Option DjangoError :=
  match self.id with
  | some i =>
      if db.sections.any (fun r => r.id == i) then
        ({ db with sections :=
            db.sections.map (fun r =>
              if r.id == i then
                { id := i, building_id := self.building_id,
                  parent_id := self.parent.bind SectionInst.id }
              else r) }, none)
      else
        ({ db with sections :=
            db.sections ++ [{ id := i, building_id := self.building_id,
                              parent_id := self.parent.bind SectionInst.id }] }, none)
  | none =>
      ({ db with sections :=
          db.sections ++ [{ id := nextSectionId db, building_id := self.building_id,
                            parent_id := self.parent.bind SectionInst.id }] }, none)

/-- `Section.save` (src/main.py lines 23-26): if the instance is new
(`not self.id`), has a parent, and that parent itself has a parent
(`getattr(self.parent, 'parent', None)`), raise `ValidationError`
('Максимальный уровень вложенности 2') before persisting anything;
otherwise delegate to `super().save(...)`. -/
def Section.save (self : SectionInst) (db : DB) : DB × Option DjangoError :=
  if !(pyTruthyOptInt self.id) && self.parent.isSome
      && (self.parent.bind SectionInst.parent).isSome then
    (db, some DjangoError.validationError)
  else
    superSaveSection self db

/-- Deleting a `Building`: `Section.building` is declared
`on_delete=models.PROTECT` (line 16), so the deletion collector raises
`ProtectedError` while any `Section` still references the building; otherwise
the row is removed. -/
def Building.delete (b_id : Int) (db : DB) : DB × Option DjangoError :=
  if db.sections.any (fun s => s.building_id == b_id) then
    (db, some DjangoError.protectedError)
  else
    ({ db with buildings := db.buildings.filter (fun b => b.id != b_id) }, none)

/-- Deleting a `Section`: both `Section.parent` (line 17) and
`Expenditure.section` (line 38) are declared `on_delete=models.PROTECT`, so
deletion raises `ProtectedError` while a child section or an expenditure still
references the section; otherwise the row is removed. -/
def Section.delete (s_id : Int) (db : DB) : DB × Option DjangoError :=
  if db.sections.any (fun s => s.parent_id == some s_id)
      || db.expenditures.any (fun e => e.section_id == s_id) then
    (db, some DjangoError.protectedError)
  else
    ({ db with sections := db.sections.filter (fun s => s.id != s_id) }, none)

/-- Deleting an `Expenditure`: no foreign key in the schema targets
`Expenditure` (see `foreignKeys`), so no dependent row can ever reference one
and deletion always removes the row. -/
def Expenditure.delete (e_id : Int) (db : DB) : DB × Option DjangoError :=
  ({ db with expenditures := db.expenditures.filter (fun e => e.id != e_id) }, none)

/-- A single existing building with one root section and no expenditures. -/
def witnessDB : DB :=
  { buildings := [{ id := 1, name := "b" }],
    sections := [{ id := 1, building_id := 1, parent_id := none }],
    expenditures := [] }

/-- The worked example of the spec: one building, one root section (id 1) with
two expenditures directly on it (2 × 10.00 and 1 × 5.00) and one child section
(id 2) with one expenditure (3 × 4.00). -/
def specExampleDB : DB :=
  { buildings := [{ id := 1, name := "b" }],
    sections := [{ id := 1, building_id := 1, parent_id := none },
                 { id := 2, building_id := 1, parent_id := some 1 }],
    expenditures :=
      [{ id := 1, section_id := 1, name := "e1", type := "work", count := 2, price := 10 },
       { id := 2, section_id := 1, name := "e2", type := "work", count := 1, price := 5 },
       { id := 3, section_id := 2, name := "e3", type := "material", count := 3, price := 4 }] }

/-- A partial-budget scenario: the root section (id 1) has no expenditures of
its own, while its child section (id 2) has one (3 × 4.00). -/
def partialBudgetDB : DB :=
  { buildings := [{ id := 1, name := "b" }],
    sections := [{ id := 1, building_id := 1, parent_id := none },
                 { id := 2, building_id := 1, parent_id := some 1 }],
    expenditures :=
      [{ id := 1, section_id := 2, name := "e", type := "work", count := 3, price := 4 }] }

/-- C1: the claim says `update_with_discount(section_id, d)` with `0 ≤ d ≤ 100`
sets an existing section's stored price to `p - p/100 × d`. In fact the
`Section` model stores no price at all, and for every database, existing
section and in-range discount the call raises `AttributeError` on
`section.price` (line 100) and leaves the database unchanged; the documented
price update (200.00 with d=10 becoming 180.00, etc.) is unachievable. -/
theorem update_with_discount_attribute_error (db : DB) (sid : Int) (d : ℚ)
    (s : SectionRow) (h0 : 0 ≤ d) (h1 : d ≤ 100)
    (hfind : db.sections.find? (fun r => r.id == sid) = some s) :
    update_with_discount db sid d = (db, some (DjangoError.attributeError "price")) := by
  unfold update_with_discount
  rw [if_neg (by push_neg; exact ⟨h0, h1⟩), hfind]

/-- Witness for C1's theorem: section 1 exists in `witnessDB` and discount 10
is in range, yet the call ends in `AttributeError` with the state unchanged. -/
theorem update_with_discount_attribute_error_witness :
    (0 : ℚ) ≤ 10 ∧ (10 : ℚ) ≤ 100 ∧
      witnessDB.sections.find? (fun r => r.id == 1)
        = some { id := 1, building_id := 1, parent_id := none } ∧
      update_with_discount witnessDB 1 10
        = (witnessDB, some (DjangoError.attributeError "price")) :=
  ⟨by norm_num, by norm_num, by rfl,
    update_with_discount_attribute_error witnessDB 1 10
      { id := 1, building_id := 1, parent_id := none }
      (by norm_num) (by norm_num) (by rfl)⟩

/-- C2: the claim says each root section returned by `get_parent_sections`
carries `budget_parent` equal to the sum of `count × price` over the
expenditures attached directly to it. In fact, for every database and every
building id, `get_parent_sections` raises `FieldError` on the keyword `price`
(the lookup `section__price` reaches child sections, not expenditures, and
sections have no `price` column), so no annotated root section is ever
returned and no budget is ever computed. -/
theorem get_parent_sections_field_error (db : DB) (building_id : Int) :
    get_parent_sections db building_id
      = Except.error (DjangoError.fieldError "price") := rfl

/-- C3: the claim says each root section returned by `get_parent_sections`
carries `budget_child` equal to the sum of `count × price` over expenditures
of its immediate children. Evaluated on the spec's own example database
(root with expenditures 2 × 10.00 and 1 × 5.00, child with 3 × 4.00, expected
`budget_child = 12.00`), the call instead raises `FieldError` on `price` and
returns nothing. -/
theorem get_parent_sections_field_error_child_example :
    get_parent_sections specExampleDB 1
      = Except.error (DjangoError.fieldError "price") := rfl

/-- C4: the claim says `budget_all = budget_parent + budget_child` with a
null component treated as numeric zero. Evaluated on a database where exactly
the partial-budget situation arises (the root has no own expenditures, its
child has one), the call raises `FieldError` on `price` and returns nothing,
so no `budget_all` — null-defaulted or otherwise — is ever produced; the
annotation as written is moreover the plain SQL sum
`F('budget_parent') + F('budget_child')`, which propagates NULL. -/
theorem get_parent_sections_field_error_partial_budget :
    get_parent_sections partialBudgetDB 1
      = Except.error (DjangoError.fieldError "price") := rfl

/-- C5: the claim says `get_buildings` returns one record per building with
`works_amount`/`materials_amount` sums (zero when nothing matches). In fact,
for every database, `get_buildings` raises `FieldError` on the keyword
`building` (the model `Building` has no lookup named `building`; its sections
are reached by the keyword `section`), so the documented records are never
produced. -/
theorem get_buildings_field_error (db : DB) :
    get_buildings db = Except.error (DjangoError.fieldError "building") := rfl

/-- C6: creating a new section (id unset) whose designated parent itself has a
non-null parent raises `ValidationError` and leaves the database unchanged (no
row persisted); creating a new section with a null parent, or with a parent
whose own parent is null, succeeds (no error) and persists the new row. -/
theorem section_save_depth_validation :
    (∀ (db : DB) (self p : SectionInst),
        self.id = none → self.parent = some p → p.parent.isSome = true →
        Section.save self db = (db, some DjangoError.validationError)) ∧
    (∀ (db : DB) (self : SectionInst),
        self.id = none →
        (self.parent = none ∨ ∃ p, self.parent = some p ∧ p.parent = none) →
        (Section.save self db).2 = none ∧
        ({ id := nextSectionId db, building_id := self.building_id,
           parent_id := self.parent.bind SectionInst.id } : SectionRow)
          ∈ (Section.save self db).1.sections) := by
  constructor
  · intro db self p hid hp hpp
    simp [Section.save, pyTruthyOptInt, hid, hp, hpp]
  · intro db self hid hcases
    have hcond : (!(pyTruthyOptInt self.id) && self.parent.isSome
        && (self.parent.bind SectionInst.parent).isSome) = false := by
      rcases hcases with h | ⟨p, hp, hpp⟩
      · simp [h]
      · simp [hp, hpp]
    rw [Section.save, if_neg (by simp [hcond])]
    simp [superSaveSection, hid]

/-- Witness for C6's theorem: against `witnessDB`, saving a new section whose
parent (id 2) itself has a parent (id 1) fails with `ValidationError` and
changes nothing, while saving a new root section and a new child of the root
section 1 both succeed. -/
theorem section_save_depth_validation_witness :
    Section.save
        { id := none, building_id := 1,
          parent := some { id := some 2, building_id := 1,
                           parent := some { id := some 1, building_id := 1,
                                            parent := none } } }
        witnessDB
      = (witnessDB, some DjangoError.validationError) ∧
    (Section.save { id := none, building_id := 1, parent := none } witnessDB).2
      = none ∧
    (Section.save
        { id := none, building_id := 1,
          parent := some { id := some 1, building_id := 1, parent := none } }
        witnessDB).2
      = none :=
  ⟨section_save_depth_validation.1 witnessDB _ _ rfl rfl rfl,
    (section_save_depth_validation.2 witnessDB _ rfl (Or.inl rfl)).1,
    (section_save_depth_validation.2 witnessDB _ rfl
      (Or.inr ⟨_, rfl, rfl⟩)).1⟩

/-- C7: for every discount outside [0, 100], `update_with_discount` raises
`ValidationError` with the database — in particular every stored price —
unchanged: the range check of line 96 precedes every other action. -/
theorem update_with_discount_out_of_range (db : DB) (sid : Int) (d : ℚ)
    (h : d < 0 ∨ d > 100) :
    update_with_discount db sid d = (db, some DjangoError.validationError) := by
  unfold update_with_discount
  rw [if_pos h]

/-- Witness for C7's theorem: discount 150 is out of range and the call on
`witnessDB` fails with `ValidationError`, state unchanged. -/
theorem update_with_discount_out_of_range_witness :
    ((150 : ℚ) < 0 ∨ (150 : ℚ) > 100) ∧
      update_with_discount witnessDB 1 150
        = (witnessDB, some DjangoError.validationError) :=
  ⟨Or.inr (by norm_num),
    update_with_discount_out_of_range witnessDB 1 150 (Or.inr (by norm_num))⟩

/-- C8: for every in-range discount and every section id matching no stored
section, `update_with_discount` fails with the not-found error
(`Section.DoesNotExist`, from `Section.objects.get` at line 99) and the
database is unchanged. -/
theorem update_with_discount_not_found (db : DB) (sid : Int) (d : ℚ)
    (h0 : 0 ≤ d) (h1 : d ≤ 100)
    (hnone : db.sections.find? (fun r => r.id == sid) = none) :
    update_with_discount db sid d = (db, some DjangoError.doesNotExist) := by
  unfold update_with_discount
  rw [if_neg (by push_neg; exact ⟨h0, h1⟩), hnone]

/-- Witness for C8's theorem: no section 99 exists in `witnessDB`, discount 10
is in range, and the call fails with the not-found error, state unchanged. -/
theorem update_with_discount_not_found_witness :
    (0 : ℚ) ≤ 10 ∧ (10 : ℚ) ≤ 100 ∧
      witnessDB.sections.find? (fun r => r.id == 99) = none ∧
      update_with_discount witnessDB 99 10
        = (witnessDB, some DjangoError.doesNotExist) :=
  ⟨by norm_num, by norm_num, by rfl,
    update_with_discount_not_found witnessDB 99 10 (by norm_num) (by norm_num)
      (by rfl)⟩

/-- C9: deleting a building referenced by at least one section, or a section
referenced by at least one child section or expenditure, fails with the
integrity error (`ProtectedError`, from `on_delete=PROTECT`) and the database
is unchanged — nothing is cascaded and the targeted row remains present.
(No foreign key of the schema targets `Expenditure`, so an expenditure can
never have a dependent row; see `foreignKeys` and `Expenditure.delete`.) -/
theorem delete_protected :
    (∀ (db : DB) (b_id : Int),
        db.sections.any (fun s => s.building_id == b_id) = true →
        Building.delete b_id db = (db, some DjangoError.protectedError)) ∧
    (∀ (db : DB) (s_id : Int),
        (db.sections.any (fun s => s.parent_id == some s_id)
          || db.expenditures.any (fun e => e.section_id == s_id)) = true →
        Section.delete s_id db = (db, some DjangoError.protectedError)) := by
  constructor
  · intro db b_id h
    simp [Building.delete, h]
  · intro db s_id h
    simp [Section.delete, h]

/-- Witness for C9's theorem: in `specExampleDB`, building 1 is referenced by
sections and section 1 by a child section, and both deletions fail with
`ProtectedError`, state unchanged. -/
theorem delete_protected_witness :
    specExampleDB.sections.any (fun s => s.building_id == 1) = true ∧
    Building.delete 1 specExampleDB
      = (specExampleDB, some DjangoError.protectedError) ∧
    (specExampleDB.sections.any (fun s => s.parent_id == some 1)
      || specExampleDB.expenditures.any (fun e => e.section_id == 1)) = true ∧
    Section.delete 1 specExampleDB
      = (specExampleDB, some DjangoError.protectedError) :=
  ⟨by rfl, delete_protected.1 specExampleDB 1 (by rfl),
    by rfl, delete_protected.2 specExampleDB 1 (by rfl)⟩

/-- C10: for every out-of-range discount, the validation check of line 96 runs
before the section lookup of line 99, so `update_with_discount` yields the
validation error with the database unchanged whether or not the section
exists, and the outputs for any two section ids coincide. -/
theorem update_with_discount_validation_precedence (db : DB) (d : ℚ)
    (h : d < 0 ∨ d > 100) (sid sid2 : Int) :
    update_with_discount db sid d = (db, some DjangoError.validationError) ∧
    update_with_discount db sid d = update_with_discount db sid2 d := by
  constructor
  · unfold update_with_discount
    rw [if_pos h]
  · unfold update_with_discount
    rw [if_pos h, if_pos h]

/-- Witness for C10's theorem: with discount 150, the call on `witnessDB`
yields `ValidationError` both for section 1 (which exists) and section 99
(which does not), with identical outputs. -/
theorem update_with_discount_validation_precedence_witness :
    ((150 : ℚ) < 0 ∨ (150 : ℚ) > 100) ∧
      update_with_discount witnessDB 1 150
        = (witnessDB, some DjangoError.validationError) ∧
      update_with_discount witnessDB 1 150
        = update_with_discount witnessDB 99 150 :=
  ⟨Or.inr (by norm_num),
    (update_with_discount_validation_precedence witnessDB 150
      (Or.inr (by norm_num)) 1 99).1,
    (update_with_discount_validation_precedence witnessDB 150
      (Or.inr (by norm_num)) 1 99).2⟩
